import Mathlib

/-!
Verification of the lightspeed-examples transaction pipeline.

The definitions below are a shallow embedding of what belongs to the repository as its own
logic: the constants and helpers of `src/utils.ts`
(`addLightSpeedTip`, `addComputeBudget`, `sendTxWithRetries`,
`checkBalanceForOperations`, `monitorTransactionStatus`, configuration
loading) and the instruction assembly / control flow of the three
scenario drivers (`solTransfer`, `tokenTransfer`,
`jupiterSwapSOLtoUSDC`, plus the older `example1_solTransfer` in
`examples.ts`).  Network effects are modelled by passing the values the
network would return (balances, account existence, per-attempt send
results, per-poll statuses, HTTP outcomes) as explicit arguments.
-/

namespace LightSpeed

/-- Addresses are base58 strings, as in the TypeScript source. -/
abbrev Pubkey := String

/-- Constant `TIPS_VIBE_FEE` from `utils.ts`: 0.001 SOL tip in lamports. -/
def TIPS_VIBE_FEE : Nat := 1000000

/-- Constant `TIPS_VIBE_STATION` from `utils.ts`: the tip collection address. -/
def TIPS_VIBE_STATION : Pubkey := "53PhM3UTdMQWu5t81wcd35AHGc5xpmHoRjem7GQPvXjA"

/-- `LAMPORTS_PER_SOL` from the SDK. -/
def LAMPORTS_PER_SOL : Nat := 1000000000

/-- The placeholder recipient substituted when `DEFAULT_RECIPIENT` is unset
(`utils.ts` line 40). -/
def placeholderRecipient : Pubkey := "So11111111111111111111111111111111111111112"

/-- `SOL_MINT` from `jupiter.ts` (the wrapped-SOL mint address). -/
def SOL_MINT : Pubkey := "So11111111111111111111111111111111111111112"

/-- `USDC_MINT` from `native.ts` / `jupiter.ts`. -/
def USDC_MINT : Pubkey := "EPjFWdd5AufqSSqeM2qN1xzybapC8G4wEGGkZwyTDt1v"

/-- `USDC_DECIMALS` from `native.ts`. -/
def USDC_DECIMALS : Nat := 6

/-- Instructions as assembled by this repository.  Jupiter-provided
instructions are opaque to the repository (it only deserializes and
forwards them), so they are carried as a tag. -/
inductive Instr where
  | setComputeUnitLimit (units : Nat)
  | setComputeUnitPrice (microLamports : Nat)
  | transfer (fromPubkey toPubkey : Pubkey) (lamports : Nat)
  | createAssociatedTokenAccount (payer ata owner mint : Pubkey)
  | splTransfer (source destination owner : Pubkey) (amount : Nat)
  | jupiterDeserialized (tag : Nat)
  deriving DecidableEq, Repr

/-- The instruction that `addLightSpeedTip` pushes: a system transfer of
`TIPS_VIBE_FEE` lamports from the payer to `TIPS_VIBE_STATION`. -/
def lightSpeedTipInstr (fromPubkey : Pubkey) : Instr :=
  Instr.transfer fromPubkey TIPS_VIBE_STATION TIPS_VIBE_FEE

/-- `addLightSpeedTip` from `utils.ts`: when `USE_LIGHTSPEED` is false it is
a no-op (apart from a log line); otherwise it appends the tip transfer. -/
def addLightSpeedTip (useLightSpeed : Bool) (instructions : List Instr)
    (fromPubkey : Pubkey) : List Instr :=
  if useLightSpeed then instructions ++ [lightSpeedTipInstr fromPubkey]
  else instructions

/-- `addComputeBudget` from `utils.ts`: unshifts the compute-unit-limit and
compute-unit-price instructions onto the front of the list (defaults in the
source: 200000 units, 1000 micro-lamports). -/
def addComputeBudget (instructions : List Instr) (computeUnits priorityFee : Nat) :
    List Instr :=
  Instr.setComputeUnitLimit computeUnits ::
    Instr.setComputeUnitPrice priorityFee :: instructions

/-- Transfer amount in `solTransfer` and `example1_solTransfer`:
0.001 * LAMPORTS_PER_SOL lamports. -/
def solTransferAmount : Nat := 1000000

/-- The estimated transaction fee constant used by the drivers. -/
def txFee : Nat := 5000

/-- The token-account creation rent constant used by the drivers. -/
def accountCreationRent : Nat := 2039280

/-- Instruction list assembled by `solTransfer` in `native.ts`:
compute budget first, the main transfer, then the optional tip. -/
def solTransferInstrs (useLightSpeed : Bool) (payer recipient : Pubkey) :
    List Instr :=
  addLightSpeedTip useLightSpeed
    (addComputeBudget [] 200000 1000 ++
      [Instr.transfer payer recipient solTransferAmount])
    payer

/-- Instruction list assembled by `tokenTransfer` in `native.ts`: compute
budget, the recipient-account creation instruction when needed, the SPL
token transfer, then the optional tip. -/
def tokenTransferInstrs (useLightSpeed : Bool)
    (payer recipient senderTokenAccount recipientTokenAccount tokenMint : Pubkey)
    (needsAccountCreation : Bool) (transferAmount : Nat) : List Instr :=
  addLightSpeedTip useLightSpeed
    ((addComputeBudget [] 200000 1000 ++
      (if needsAccountCreation then
        [Instr.createAssociatedTokenAccount payer recipientTokenAccount
          recipient tokenMint]
       else [])) ++
      [Instr.splTransfer senderTokenAccount recipientTokenAccount payer
        transferAmount])
    payer

/-- Instruction list assembled by `jupiterSwapSOLtoUSDC` in `jupiter.ts`:
its own compute budget (400000 units, chosen priority fee), the Jupiter
setup instructions, the swap instruction, an optional cleanup instruction,
then the optional tip. -/
def jupiterSwapInstrs (useLightSpeed : Bool) (payer : Pubkey)
    (setupInstructions : List Nat) (swapInstruction : Nat)
    (cleanupInstruction : Option Nat) (priorityFee : Nat) : List Instr :=
  addLightSpeedTip useLightSpeed
    ((([Instr.setComputeUnitLimit 400000,
        Instr.setComputeUnitPrice priorityFee] ++
       setupInstructions.map Instr.jupiterDeserialized) ++
      [Instr.jupiterDeserialized swapInstruction]) ++
     (match cleanupInstruction with
      | some c => [Instr.jupiterDeserialized c]
      | none => []))
    payer

/-- The total the balance guard compares against in
`checkBalanceForOperations`: the tip fee is added only when LightSpeed is
enabled. -/
def totalRequired (useLightSpeed : Bool) (requiredLamports : Nat) : Nat :=
  if useLightSpeed then requiredLamports + TIPS_VIBE_FEE else requiredLamports

/-- `checkBalanceForOperations` from `utils.ts`, with the fetched balance
passed explicitly: returns false when the balance is below the total
(base cost plus tip when enabled), true otherwise.  It never throws. -/
def checkBalanceForOperations (useLightSpeed : Bool)
    (balance requiredLamports : Nat) : Bool :=
  if balance < totalRequired useLightSpeed requiredLamports then false
  else true

/-- Visible outcome of one send attempt: `none` models a thrown error from
`sendRawTransaction`; `some s` models a returned signature string (the
source treats an empty signature as a failure and retries). -/
abbrev SendFn := Nat → Option String

/-- Whether attempt `i` fails in `sendTxWithRetries`: the call throws, or
the returned signature is empty (falsy), which the source turns into a
thrown error caught by the same handler. -/
def attemptFails (send : SendFn) (i : Nat) : Prop :=
  send i = none ∨ send i = some ""

instance (send : SendFn) (i : Nat) : Decidable (attemptFails send i) := by
  unfold attemptFails; infer_instance

/-- The retry loop of `sendTxWithRetries`, instrumented with the number of
send calls made.  `fuel` is the number of attempts remaining and `attempt`
the 1-based index of the next attempt. -/
def sendTxAux (send : SendFn) : Nat → Nat → Option String × Nat
  | 0, _ => (none, 0)
  | fuel + 1, attempt =>
    match send attempt with
    | some signature =>
      if signature = "" then
        let r := sendTxAux send fuel (attempt + 1)
        (r.1, r.2 + 1)
      else (some signature, 1)
    | none =>
      let r := sendTxAux send fuel (attempt + 1)
      (r.1, r.2 + 1)

/-- `sendTxWithRetries` from `utils.ts` (default `maxAttempts = 3`): first
component is the returned signature (or `none` after all attempts fail),
second component is the number of send calls made. -/
def sendTxWithRetries (send : SendFn) (maxAttempts : Nat) : Option String × Nat :=
  sendTxAux send maxAttempts 1

/-- The confirmation status reported by one `getSignatureStatus` poll, as
examined by `monitorTransactionStatus`: `failed` is a status carrying an
`err`, `pending` any other non-terminal status. -/
inductive ConfStatus where
  | pending
  | confirmed
  | finalized
  | failed
  deriving DecidableEq, Repr

/-- The polling loop of `monitorTransactionStatus`, instrumented with the
number of status queries made.  `n` is the number of polls already
performed, so elapsed time at the loop head is `n * 1000` ms (the source
sleeps 1000 ms between polls).  Returns the status value on
confirmed/finalized and `none` on a reported error or on timeout. -/
def monitorAux (getStatus : Nat → ConfStatus) (maxWaitTime : Nat) :
    Nat → Nat → Option ConfStatus × Nat
  | 0, _ => (none, 0)
  | fuel + 1, n =>
    if n * 1000 < maxWaitTime then
      match getStatus n with
      | ConfStatus.confirmed => (some ConfStatus.confirmed, 1)
      | ConfStatus.finalized => (some ConfStatus.finalized, 1)
      | ConfStatus.failed => (none, 1)
      | ConfStatus.pending =>
        let r := monitorAux getStatus maxWaitTime fuel (n + 1)
        (r.1, r.2 + 1)
    else (none, 0)

/-- `monitorTransactionStatus` from `utils.ts` (default
`maxWaitTime = 30000`, fixed 1000 ms interval): first component is the
returned value (`some` status only on confirmed/finalized, `none` both on
a reported transaction error and on timeout), second the number of
status queries made. -/
def monitorTransactionStatus (getStatus : Nat → ConfStatus)
    (maxWaitTime : Nat) : Option ConfStatus × Nat :=
  monitorAux getStatus maxWaitTime (maxWaitTime / 1000 + 1) 0

/-- `totalNeeded` in `example1_solTransfer` (`examples.ts` line 39): it
already includes `TIPS_VIBE_FEE` before handing it to the balance guard. -/
def example1_totalNeeded : Nat := solTransferAmount + TIPS_VIBE_FEE + txFee

/-- `totalNeeded` in `solTransfer` (`native.ts` line 42): the tip fee is
deliberately not added here. -/
def solTransfer_totalNeeded : Nat := solTransferAmount + txFee

/-- The numeric value of `displayAmount` in `tokenTransfer`: for the USDC
mint the raw amount divided by 10^6, for every other mint the raw amount
itself (the source applies no decimal conversion there). -/
def displayAmountNum (tokenMint : Pubkey) (transferAmount : Nat) : ℚ :=
  if tokenMint = USDC_MINT then (transferAmount : ℚ) / 10 ^ USDC_DECIMALS
  else (transferAmount : ℚ)

/-- `totalSOLNeeded` in `tokenTransfer`: transaction fee plus the
account-creation rent exactly when the recipient token account is
missing. -/
def tokenTransferTotalSOLNeeded (needsAccountCreation : Bool) : Nat :=
  txFee + (if needsAccountCreation then accountCreationRent else 0)

/-- Outcome of one run of the `tokenTransfer` scenario driver. -/
inductive TokenTransferResult where
  | insufficientSOL
  | noSenderTokenAccount
  | insufficientTokenBalance
  | sent (instructions : List Instr)
  deriving DecidableEq, Repr

/-- The control flow of `tokenTransfer` in `native.ts`, with the values the
network would return passed explicitly: SOL balance guard first, then the
sender-token-account existence check (abort with a dedicated error), then
the token balance check against `displayAmount`, and only then the
instruction assembly. -/
def tokenTransferRun (useLightSpeed : Bool)
    (payer recipient tokenMint senderTokenAccount recipientTokenAccount : Pubkey)
    (solBalance : Nat) (recipientAccountExists senderAccountExists : Bool)
    (tokenBalance : ℚ) (transferAmount : Nat) : TokenTransferResult :=
  let needsAccountCreation := !recipientAccountExists
  if checkBalanceForOperations useLightSpeed solBalance
      (tokenTransferTotalSOLNeeded needsAccountCreation) = false then
    TokenTransferResult.insufficientSOL
  else if senderAccountExists = false then
    TokenTransferResult.noSenderTokenAccount
  else if tokenBalance < displayAmountNum tokenMint transferAmount then
    TokenTransferResult.insufficientTokenBalance
  else
    TokenTransferResult.sent
      (tokenTransferInstrs useLightSpeed payer recipient senderTokenAccount
        recipientTokenAccount tokenMint needsAccountCreation transferAmount)

/-- The Jupiter instruction payload the swap driver consumes. -/
structure SwapInstrData where
  setupInstructions : List Nat
  swapInstruction : Nat
  cleanupInstruction : Option Nat
  deriving DecidableEq, Repr

/-- The message the catch block of `jupiterSwapSOLtoUSDC` reports for an
axios error with the given HTTP status: 429 and 400 get dedicated
messages, anything else only the generic line. -/
def jupiterErrorReport (status : Nat) : String :=
  if status = 429 then "Rate limited. Try again in a few seconds."
  else if status = 400 then "Bad request. Check your parameters."
  else "Swap error"

/-- `totalNeeded` in `jupiterSwapSOLtoUSDC`: amount in + 10000 + the
priority fee, without the tip (added by the guard). -/
def jupiterTotalNeeded : Nat := solTransferAmount + 10000 + 50000

/-- The priority fee constant of the swap driver. -/
def jupiterPriorityFee : Nat := 50000

/-- Outcome of one run of the `jupiterSwapSOLtoUSDC` scenario driver. -/
inductive SwapOutcome where
  | insufficientBalance
  | aborted (message : String)
  | sent (instructions : List Instr)
  deriving DecidableEq, Repr

/-- The control flow of `jupiterSwapSOLtoUSDC` in `jupiter.ts`: balance
guard, then the quote HTTP call, then the swap-instructions HTTP call;
any HTTP failure is caught by the catch block of the scenario (which reports a
status-specific message) and no transaction is built.  HTTP outcomes are
passed explicitly: `Except.error s` is an axios error with status `s`. -/
def jupiterSwapRun (useLightSpeed : Bool) (payer : Pubkey) (solBalance : Nat)
    (quoteResult : Except Nat Nat) (instrResult : Except Nat SwapInstrData) :
    SwapOutcome :=
  if checkBalanceForOperations useLightSpeed solBalance jupiterTotalNeeded
      = false then
    SwapOutcome.insufficientBalance
  else
    match quoteResult with
    | Except.error status => SwapOutcome.aborted (jupiterErrorReport status)
    | Except.ok _ =>
      match instrResult with
      | Except.error status => SwapOutcome.aborted (jupiterErrorReport status)
      | Except.ok d =>
        SwapOutcome.sent
          (jupiterSwapInstrs useLightSpeed payer d.setupInstructions
            d.swapInstruction d.cleanupInstruction jupiterPriorityFee)

/-- Whether an environment value is falsy in the JavaScript sense
(absent or the empty string). -/
def envFalsy (v : Option String) : Bool :=
  v.getD "" = ""

/-- Resolution of `DEFAULT_RECIPIENT` (`utils.ts` line 40):
`process.env.DEFAULT_RECIPIENT || placeholder`. -/
def resolveDefaultRecipient (env : Option String) : String :=
  if envFalsy env then placeholderRecipient else env.getD ""

/-- The configuration record assembled at module load of `utils.ts`. -/
structure Config where
  rpcEndpoint : String
  rpcLightSpeedEndpoint : String
  walletPath : String
  defaultRecipient : String
  warnedDefaultRecipient : Bool
  deriving DecidableEq, Repr

/-- Configuration loading from `utils.ts`: a missing (falsy)
`RPC_ENDPOINT`, `RPC_LIGHTSPEED_ENDPOINT` or `WALLET_PATH` throws, while a
missing `DEFAULT_RECIPIENT` only logs a warning and falls back to the
placeholder address. -/
def loadConfig (rpc rpcLightSpeed walletPath defaultRecipientEnv : Option String) :
    Except String Config :=
  if envFalsy rpc then Except.error "RPC_ENDPOINT is not set in .env file"
  else if envFalsy rpcLightSpeed then
    Except.error "RPC_LIGHTSPEED_ENDPOINT is not set in .env file"
  else if envFalsy walletPath then
    Except.error "WALLET_PATH is not set in .env file"
  else
    Except.ok
      ⟨rpc.getD "", rpcLightSpeed.getD "", walletPath.getD "",
        resolveDefaultRecipient defaultRecipientEnv,
        envFalsy defaultRecipientEnv⟩

/-- Recipient resolution in `solTransfer`: the argument when given,
otherwise `DEFAULT_RECIPIENT`. -/
def solTransferRecipient (recipientAddress : Option Pubkey)
    (defaultRecipient : Pubkey) : Pubkey :=
  recipientAddress.getD defaultRecipient

/-- Recipient resolution in `tokenTransfer`: the argument when given,
otherwise `DEFAULT_RECIPIENT`. -/
def tokenTransferRecipient (recipientAddress : Option Pubkey)
    (defaultRecipient : Pubkey) : Pubkey :=
  recipientAddress.getD defaultRecipient

/-- Helper: when every attempt in the window fails, the retry loop
exhausts its fuel and returns `none` after exactly `fuel` calls. -/
theorem sendTxAux_all_fail (send : SendFn) :
    ∀ fuel start, (∀ i, start ≤ i → i < start + fuel → attemptFails send i) →
      sendTxAux send fuel start = (none, fuel) := by
  intro fuel
  induction fuel with
  | zero => intro start _; simp [sendTxAux]
  | succ f ih =>
    intro start h
    have h0 : attemptFails send start := h start le_rfl (by omega)
    have hrest : ∀ i, start + 1 ≤ i → i < (start + 1) + f → attemptFails send i :=
      fun i h1 h2 => h i (by omega) (by omega)
    have hr := ih (start + 1) hrest
    unfold sendTxAux
    rcases h0 with h0 | h0 <;> rw [h0] <;> simp [hr]

/-- Helper: when the first `k` attempts of the window fail and attempt
`start + k` returns a non-empty signature, the retry loop returns that
signature after exactly `k + 1` calls. -/
theorem sendTxAux_success (send : SendFn) (sig : String) (hsig : sig ≠ "") :
    ∀ k fuel start, k < fuel →
      (∀ i, start ≤ i → i < start + k → attemptFails send i) →
      send (start + k) = some sig →
      sendTxAux send fuel start = (some sig, k + 1) := by
  intro k
  induction k with
  | zero =>
    intro fuel start hk _ hsend
    cases fuel with
    | zero => omega
    | succ f =>
      rw [show start + 0 = start from rfl] at hsend
      unfold sendTxAux
      rw [hsend]
      simp [hsig]
  | succ k ih =>
    intro fuel start hk h hsend
    cases fuel with
    | zero => omega
    | succ f =>
      have h0 : attemptFails send start := h start le_rfl (by omega)
      have hrest : ∀ i, start + 1 ≤ i → i < (start + 1) + k → attemptFails send i :=
        fun i h1 h2 => h i (by omega) (by omega)
      have hsend' : send ((start + 1) + k) = some sig := by
        rw [show (start + 1) + k = start + (k + 1) by omega]; exact hsend
      have hr := ih f (start + 1) (by omega) hrest hsend'
      unfold sendTxAux
      rcases h0 with h0 | h0 <;> rw [h0] <;> simp [hr]

/-- Helper: the polling loop only ever returns `some` on a confirmed or
finalized status. -/
theorem monitorAux_some_only_success (getStatus : Nat → ConfStatus)
    (maxWaitTime : Nat) :
    ∀ fuel n st, (monitorAux getStatus maxWaitTime fuel n).1 = some st →
      st = ConfStatus.confirmed ∨ st = ConfStatus.finalized := by
  intro fuel
  induction fuel with
  | zero => intro n st h; simp [monitorAux] at h
  | succ f ih =>
    intro n st h
    unfold monitorAux at h
    by_cases hg : n * 1000 < maxWaitTime
    · rw [if_pos hg] at h
      cases hcs : getStatus n <;> rw [hcs] at h <;> simp at h
      · exact ih (n + 1) st h
      · exact Or.inl h.symm
      · exact Or.inr h.symm
    · rw [if_neg hg] at h
      simp at h

/-- Helper: `k` pending polls followed by a confirmed poll, all inside the
time bound and the fuel, make the loop return confirmed after `k + 1`
queries. -/
theorem monitorAux_confirmed (getStatus : Nat → ConfStatus) (maxWaitTime : Nat) :
    ∀ k fuel n, (∀ i, n ≤ i → i < n + k → getStatus i = ConfStatus.pending) →
      getStatus (n + k) = ConfStatus.confirmed →
      (n + k) * 1000 < maxWaitTime → k < fuel →
      monitorAux getStatus maxWaitTime fuel n = (some ConfStatus.confirmed, k + 1) := by
  intro k
  induction k with
  | zero =>
    intro fuel n _ hc hlt hk
    cases fuel with
    | zero => omega
    | succ f =>
      rw [show n + 0 = n from rfl] at hc hlt
      unfold monitorAux
      rw [if_pos hlt, hc]
  | succ k ih =>
    intro fuel n h hc hlt hk
    cases fuel with
    | zero => omega
    | succ f =>
      have hp : getStatus n = ConfStatus.pending := h n le_rfl (by omega)
      have hg : n * 1000 < maxWaitTime := by omega
      have hr := ih f (n + 1)
        (fun i h1 h2 => h i (by omega) (by omega))
        (by rw [show (n + 1) + k = n + (k + 1) by omega]; exact hc)
        (by omega) (by omega)
      unfold monitorAux
      rw [if_pos hg, hp]
      simp [hr]

/-- Helper: with a source that stays pending forever and the default
30000 ms bound, the loop makes exactly `30 - n` further queries and
returns `none`. -/
theorem monitorAux_all_pending (getStatus : Nat → ConfStatus)
    (hp : ∀ i, getStatus i = ConfStatus.pending) :
    ∀ fuel n, n + fuel = 31 → n ≤ 30 →
      monitorAux getStatus 30000 fuel n = (none, 30 - n) := by
  intro fuel
  induction fuel with
  | zero => intro n h1 h2; omega
  | succ f ih =>
    intro n h1 h2
    unfold monitorAux
    by_cases hg : n * 1000 < 30000
    · rw [if_pos hg, hp n]
      have hr := ih (n + 1) (by omega) (by omega)
      simp [hr]
      omega
    · rw [if_neg hg]
      have hn : n = 30 := by omega
      rw [hn]

/-- C2: the balance guard returns true exactly when the balance covers the
base cost plus the tip (the latter only when LightSpeed is enabled), and
the insufficient case is an ordinary `false` result of a total function,
not an exception. -/
theorem checkBalance_sufficient_iff (useLightSpeed : Bool)
    (balance baseCost : Nat) :
    checkBalanceForOperations useLightSpeed balance baseCost = true ↔
      balance ≥ baseCost + (if useLightSpeed then TIPS_VIBE_FEE else 0) := by
  cases useLightSpeed <;>
    simp [checkBalanceForOperations, totalRequired]

/-- C5 counterexample: a status source that reports a transaction error on
the very first poll and a source that never resolves lead to the very same
return value (`none`), so the failed and timed-out outcomes are not
reported distinctly through the return value. -/
theorem monitor_failed_eq_timeout_return :
    (monitorTransactionStatus (fun _ => ConfStatus.failed) 30000).1 =
      (monitorTransactionStatus (fun _ => ConfStatus.pending) 30000).1 ∧
    (monitorTransactionStatus (fun _ => ConfStatus.failed) 30000).1 = none := by
  constructor <;> decide

/-- C5 amended: the polling monitor returns the same absence value
(`none`) both for a network-reported failure and for a timeout — the two
are distinguished only in logging — and it never returns a status that is
not confirmed or finalized as a success. -/
theorem monitor_no_false_success :
    (∀ (getStatus : Nat → ConfStatus) (maxWaitTime : Nat) (st : ConfStatus),
        (monitorTransactionStatus getStatus maxWaitTime).1 = some st →
        st = ConfStatus.confirmed ∨ st = ConfStatus.finalized) ∧
    (monitorTransactionStatus (fun _ => ConfStatus.failed) 30000).1 = none ∧
    (monitorTransactionStatus (fun _ => ConfStatus.pending) 30000).1 = none := by
  refine ⟨?_, by decide, by decide⟩
  intro getStatus maxWaitTime st h
  exact monitorAux_some_only_success getStatus maxWaitTime _ _ st h

/-- Witness for the C5 amended theorem at a concrete, immediately
confirmed status source. -/
theorem monitor_no_false_success_witness :
    ConfStatus.confirmed = ConfStatus.confirmed ∨
      ConfStatus.confirmed = ConfStatus.finalized :=
  monitor_no_false_success.1 (fun _ => ConfStatus.confirmed) 30000
    ConfStatus.confirmed (by decide)

/-- C6 counterexample: `example1_solTransfer` hands the guard a base cost
that already contains the fixed tip while `solTransfer` does not, so with
the tip flag enabled the two drivers require different totals for the
same 0.001 SOL transfer. -/
theorem example1_vs_solTransfer_totals_differ :
    example1_totalNeeded = solTransfer_totalNeeded + TIPS_VIBE_FEE ∧
    totalRequired true example1_totalNeeded ≠
      totalRequired true solTransfer_totalNeeded := by
  constructor <;> decide

/-- C6 amended: the drivers compose the pre-check inconsistently —
`example1_solTransfer` includes the tip in the base cost so the guard
(which adds the tip again when enabled) counts it twice, while
`solTransfer` passes the tip-free base cost and the tip is counted
once. -/
theorem example1_counts_tip_twice :
    example1_totalNeeded = solTransferAmount + txFee + TIPS_VIBE_FEE ∧
    solTransfer_totalNeeded = solTransferAmount + txFee ∧
    totalRequired true example1_totalNeeded =
      solTransferAmount + txFee + 2 * TIPS_VIBE_FEE ∧
    totalRequired true solTransfer_totalNeeded =
      solTransferAmount + txFee + TIPS_VIBE_FEE ∧
    totalRequired true example1_totalNeeded ≠
      totalRequired true solTransfer_totalNeeded := by
  refine ⟨by decide, by decide, by decide, by decide, by decide⟩

/-- Helper: a list extended by a final element has that element as its
last. -/
theorem getLast?_append_singleton {α : Type} (l : List α) (x : α) :
    (l ++ [x]).getLast? = some x := by
  rw [List.getLast?_append_cons]
  rfl

/-- Helper: with the flag on, the list returned by `addLightSpeedTip` ends
with the tip instruction. -/
theorem addLightSpeedTip_true_getLast (l : List Instr) (p : Pubkey) :
    (addLightSpeedTip true l p).getLast? = some (lightSpeedTipInstr p) :=
  getLast?_append_singleton l (lightSpeedTipInstr p)

/-- Helper: C1 components for the native transfer composer. -/
theorem solTransferInstrs_spec (useLightSpeed : Bool) (payer recipient : Pubkey)
    (hrec : recipient ≠ TIPS_VIBE_STATION) :
    (solTransferInstrs useLightSpeed payer recipient).take 2 =
        [Instr.setComputeUnitLimit 200000, Instr.setComputeUnitPrice 1000] ∧
      (useLightSpeed = true →
        (solTransferInstrs useLightSpeed payer recipient).getLast? =
          some (lightSpeedTipInstr payer)) ∧
      (useLightSpeed = false →
        lightSpeedTipInstr payer ∉ solTransferInstrs useLightSpeed payer recipient) := by
  cases useLightSpeed
  · refine ⟨rfl, ?_, ?_⟩
    · intro h; exact Bool.noConfusion h
    · intro _
      simp [solTransferInstrs, addLightSpeedTip, addComputeBudget,
        lightSpeedTipInstr, Ne.symm hrec]
  · refine ⟨rfl, ?_, ?_⟩
    · intro _; exact addLightSpeedTip_true_getLast _ _
    · intro h; exact Bool.noConfusion h

/-- Helper: C1 components for the token transfer composer. -/
theorem tokenTransferInstrs_spec (useLightSpeed : Bool)
    (payer recipient senderTokenAccount recipientTokenAccount tokenMint : Pubkey)
    (needsAccountCreation : Bool) (transferAmount : Nat) :
    (tokenTransferInstrs useLightSpeed payer recipient senderTokenAccount
          recipientTokenAccount tokenMint needsAccountCreation
          transferAmount).take 2 =
        [Instr.setComputeUnitLimit 200000, Instr.setComputeUnitPrice 1000] ∧
      (useLightSpeed = true →
        (tokenTransferInstrs useLightSpeed payer recipient senderTokenAccount
            recipientTokenAccount tokenMint needsAccountCreation
            transferAmount).getLast? = some (lightSpeedTipInstr payer)) ∧
      (useLightSpeed = false →
        lightSpeedTipInstr payer ∉
          tokenTransferInstrs useLightSpeed payer recipient senderTokenAccount
            recipientTokenAccount tokenMint needsAccountCreation transferAmount) := by
  cases useLightSpeed
  · refine ⟨?_, ?_, ?_⟩
    · cases needsAccountCreation <;> rfl
    · intro h; exact Bool.noConfusion h
    · intro _
      cases needsAccountCreation <;>
        simp [tokenTransferInstrs, addLightSpeedTip, addComputeBudget,
          lightSpeedTipInstr]
  · refine ⟨?_, ?_, ?_⟩
    · cases needsAccountCreation <;> rfl
    · intro _; exact addLightSpeedTip_true_getLast _ _
    · intro h; exact Bool.noConfusion h

/-- Helper: C1 components for the Jupiter swap composer. -/
theorem jupiterSwapInstrs_spec (useLightSpeed : Bool) (payer : Pubkey)
    (setupInstructions : List Nat) (swapInstruction : Nat)
    (cleanupInstruction : Option Nat) (priorityFee : Nat) :
    (jupiterSwapInstrs useLightSpeed payer setupInstructions swapInstruction
          cleanupInstruction priorityFee).take 2 =
        [Instr.setComputeUnitLimit 400000, Instr.setComputeUnitPrice priorityFee] ∧
      (useLightSpeed = true →
        (jupiterSwapInstrs useLightSpeed payer setupInstructions swapInstruction
            cleanupInstruction priorityFee).getLast? =
          some (lightSpeedTipInstr payer)) ∧
      (useLightSpeed = false →
        lightSpeedTipInstr payer ∉
          jupiterSwapInstrs useLightSpeed payer setupInstructions swapInstruction
            cleanupInstruction priorityFee) := by
  cases useLightSpeed
  · refine ⟨?_, ?_, ?_⟩
    · cases cleanupInstruction <;> rfl
    · intro h; exact Bool.noConfusion h
    · intro _
      cases cleanupInstruction <;>
        simp [jupiterSwapInstrs, addLightSpeedTip, lightSpeedTipInstr]
  · refine ⟨?_, ?_, ?_⟩
    · cases cleanupInstruction <;> rfl
    · intro _; exact addLightSpeedTip_true_getLast _ _
    · intro h; exact Bool.noConfusion h

/-- C1: in all three composers the compute-budget pair (unit limit, then
unit price) forms the first two elements; when LightSpeed is enabled the
tip transfer is the last element, and when it is disabled no tip transfer
occurs in the list (for the native transfer this needs the recipient to
differ from the tip address, since a 0.001 SOL transfer to the tip
address is bytewise the tip instruction). -/
theorem composers_budget_first_tip_last (useLightSpeed : Bool)
    (payer recipient senderTokenAccount recipientTokenAccount tokenMint : Pubkey)
    (needsAccountCreation : Bool) (transferAmount : Nat)
    (setupInstructions : List Nat) (swapInstruction : Nat)
    (cleanupInstruction : Option Nat) (priorityFee : Nat)
    (hrec : recipient ≠ TIPS_VIBE_STATION) :
    ((solTransferInstrs useLightSpeed payer recipient).take 2 =
        [Instr.setComputeUnitLimit 200000, Instr.setComputeUnitPrice 1000] ∧
      (useLightSpeed = true →
        (solTransferInstrs useLightSpeed payer recipient).getLast? =
          some (lightSpeedTipInstr payer)) ∧
      (useLightSpeed = false →
        lightSpeedTipInstr payer ∉ solTransferInstrs useLightSpeed payer recipient)) ∧
    ((tokenTransferInstrs useLightSpeed payer recipient senderTokenAccount
          recipientTokenAccount tokenMint needsAccountCreation
          transferAmount).take 2 =
        [Instr.setComputeUnitLimit 200000, Instr.setComputeUnitPrice 1000] ∧
      (useLightSpeed = true →
        (tokenTransferInstrs useLightSpeed payer recipient senderTokenAccount
            recipientTokenAccount tokenMint needsAccountCreation
            transferAmount).getLast? = some (lightSpeedTipInstr payer)) ∧
      (useLightSpeed = false →
        lightSpeedTipInstr payer ∉
          tokenTransferInstrs useLightSpeed payer recipient senderTokenAccount
            recipientTokenAccount tokenMint needsAccountCreation transferAmount)) ∧
    ((jupiterSwapInstrs useLightSpeed payer setupInstructions swapInstruction
          cleanupInstruction priorityFee).take 2 =
        [Instr.setComputeUnitLimit 400000, Instr.setComputeUnitPrice priorityFee] ∧
      (useLightSpeed = true →
        (jupiterSwapInstrs useLightSpeed payer setupInstructions swapInstruction
            cleanupInstruction priorityFee).getLast? =
          some (lightSpeedTipInstr payer)) ∧
      (useLightSpeed = false →
        lightSpeedTipInstr payer ∉
          jupiterSwapInstrs useLightSpeed payer setupInstructions swapInstruction
            cleanupInstruction priorityFee)) :=
  ⟨solTransferInstrs_spec useLightSpeed payer recipient hrec,
   tokenTransferInstrs_spec useLightSpeed payer recipient senderTokenAccount
     recipientTokenAccount tokenMint needsAccountCreation transferAmount,
   jupiterSwapInstrs_spec useLightSpeed payer setupInstructions swapInstruction
     cleanupInstruction priorityFee⟩

/-- Witness for C1 at concrete inputs: with LightSpeed enabled, the native
transfer list ends in the tip instruction. -/
theorem composers_budget_first_tip_last_witness :
    (solTransferInstrs true "payer" "recipient").getLast? =
      some (lightSpeedTipInstr "payer") :=
  ((composers_budget_first_tip_last true "payer" "recipient" "senderATA"
      "recipientATA" "mint" true 5 [7] 8 (some 9) 50000 (by decide)).1).2.1 rfl

/-- C3: with `maxAttempts = 3`, if the first `N` attempts fail
(throw or return an empty signature) and attempt `N + 1` returns a
non-empty signature, `sendTxWithRetries` returns that signature after
exactly `N + 1` send calls; if all three attempts fail it returns `none`
after exactly 3 calls, raising nothing. -/
theorem sendTxWithRetries_contract (send : SendFn) (N : Nat) (sig : String) :
    (N < 3 → (∀ i, 1 ≤ i → i ≤ N → attemptFails send i) →
      send (N + 1) = some sig → sig ≠ "" →
      sendTxWithRetries send 3 = (some sig, N + 1)) ∧
    ((∀ i, 1 ≤ i → i ≤ 3 → attemptFails send i) →
      sendTxWithRetries send 3 = (none, 3)) := by
  constructor
  · intro hN h hsend hsig
    have h' : ∀ i, 1 ≤ i → i < 1 + N → attemptFails send i :=
      fun i h1 h2 => h i h1 (by omega)
    have hsend' : send (1 + N) = some sig := by
      rw [Nat.add_comm]; exact hsend
    exact sendTxAux_success send sig hsig N 3 1 hN h' hsend'
  · intro h
    exact sendTxAux_all_fail send 3 1 (fun i h1 h2 => h i h1 (by omega))

/-- Witness for C3: a send function that throws on attempts 1 and 2 and
succeeds on attempt 3 yields that signature after 3 calls. -/
theorem sendTxWithRetries_contract_witness :
    sendTxWithRetries (fun i => if i = 3 then some "sg" else none) 3 =
      (some "sg", 3) :=
  (sendTxWithRetries_contract (fun i => if i = 3 then some "sg" else none)
      2 "sg").1
    (by decide)
    (by intro i h1 h2; interval_cases i <;> decide)
    (by decide) (by decide)

/-- C4: with the fixed 1000 ms interval and 30000 ms bound, a source that
is pending for the first `k` polls and confirmed on the next is reported
confirmed after exactly `k + 1` queries (when `k * 1000 < 30000`), and a
source that never resolves times out with `none` after exactly
30 = 30000 / 1000 queries. -/
theorem monitor_polling_contract (getStatus : Nat → ConfStatus) (k : Nat) :
    ((∀ i, i < k → getStatus i = ConfStatus.pending) →
      getStatus k = ConfStatus.confirmed → k * 1000 < 30000 →
      monitorTransactionStatus getStatus 30000 =
        (some ConfStatus.confirmed, k + 1)) ∧
    ((∀ i, getStatus i = ConfStatus.pending) →
      monitorTransactionStatus getStatus 30000 = (none, 30)) := by
  constructor
  · intro h hc hk
    unfold monitorTransactionStatus
    rw [show (30000 / 1000 + 1 : Nat) = 31 by norm_num]
    exact monitorAux_confirmed getStatus 30000 k 31 0
      (fun i h1 h2 => h i (by omega))
      (by simpa using hc) (by omega) (by omega)
  · intro h
    unfold monitorTransactionStatus
    rw [show (30000 / 1000 + 1 : Nat) = 31 by norm_num]
    simpa using monitorAux_all_pending getStatus h 31 0 rfl (by omega)

/-- Witness for C4: a source pending for 2 polls and confirmed on the
third is reported confirmed after exactly 3 queries. -/
theorem monitor_polling_contract_witness :
    monitorTransactionStatus
      (fun i => if i < 2 then ConfStatus.pending else ConfStatus.confirmed)
      30000 = (some ConfStatus.confirmed, 3) :=
  (monitor_polling_contract
      (fun i => if i < 2 then ConfStatus.pending else ConfStatus.confirmed) 2).1
    (by intro i hi; interval_cases i <;> decide)
    (by decide) (by decide)

/-- C7: a missing sender token account means the token transfer is never
sent (when the SOL guard passes, the dedicated no-token-account error is
reported); and whenever a transfer is sent, the token balance of the sender is
at least the requested amount expressed in decimal units of the mint
(for USDC the source divides by 10^6; for other mints it compares against
the raw amount, which dominates the decimal amount). -/
theorem tokenTransfer_precondition_guard (useLightSpeed : Bool)
    (payer recipient tokenMint senderTokenAccount recipientTokenAccount : Pubkey)
    (solBalance : Nat) (recipientAccountExists : Bool) (tokenBalance : ℚ)
    (transferAmount : Nat) (decimals : Nat)
    (hdec : tokenMint = USDC_MINT → decimals = USDC_DECIMALS) :
    (∀ instrs, tokenTransferRun useLightSpeed payer recipient tokenMint
        senderTokenAccount recipientTokenAccount solBalance
        recipientAccountExists false tokenBalance transferAmount ≠
      TokenTransferResult.sent instrs) ∧
    (checkBalanceForOperations useLightSpeed solBalance
        (tokenTransferTotalSOLNeeded !recipientAccountExists) = true →
      tokenTransferRun useLightSpeed payer recipient tokenMint
        senderTokenAccount recipientTokenAccount solBalance
        recipientAccountExists false tokenBalance transferAmount =
        TokenTransferResult.noSenderTokenAccount) ∧
    (∀ senderAccountExists instrs,
      tokenTransferRun useLightSpeed payer recipient tokenMint
          senderTokenAccount recipientTokenAccount solBalance
          recipientAccountExists senderAccountExists tokenBalance
          transferAmount = TokenTransferResult.sent instrs →
      (transferAmount : ℚ) / 10 ^ decimals ≤ tokenBalance) := by
  refine ⟨?_, ?_, ?_⟩
  · intro instrs h
    by_cases h1 : checkBalanceForOperations useLightSpeed solBalance
        (tokenTransferTotalSOLNeeded !recipientAccountExists) = false <;>
      simp [tokenTransferRun, h1] at h
  · intro hbal
    simp [tokenTransferRun, hbal]
  · intro senderAccountExists instrs h
    by_cases h1 : checkBalanceForOperations useLightSpeed solBalance
        (tokenTransferTotalSOLNeeded !recipientAccountExists) = false
    · simp [tokenTransferRun, h1] at h
    · by_cases h2 : senderAccountExists = false
      · simp [tokenTransferRun, h1, h2] at h
      · by_cases h3 : tokenBalance < displayAmountNum tokenMint transferAmount
        · simp [tokenTransferRun, h1, h2, h3] at h
        · have hge : displayAmountNum tokenMint transferAmount ≤ tokenBalance :=
            not_lt.mp h3
          refine le_trans ?_ hge
          unfold displayAmountNum
          by_cases hm : tokenMint = USDC_MINT
          · rw [if_pos hm, hdec hm]
          · rw [if_neg hm]
            exact div_le_self (by positivity) (one_le_pow₀ (by norm_num))

/-- Witness for C7: with a passing SOL guard and no sender token account,
the run reports the dedicated error. -/
theorem tokenTransfer_precondition_guard_witness :
    tokenTransferRun false "payer" "recipient" USDC_MINT "senderATA"
      "recipientATA" 10000000 true false 0 1 =
      TokenTransferResult.noSenderTokenAccount :=
  (tokenTransfer_precondition_guard false "payer" "recipient" USDC_MINT
      "senderATA" "recipientATA" 10000000 true 0 1 6
      (fun _ => rfl)).2.1 (by decide)

/-- C8: when the recipient token account is missing, the guard total
includes the account-creation rent and the composed list has the
account-creation instruction (index 2) before the token-transfer
instruction (index 3); when it exists, the total is the bare transaction
fee and no account-creation instruction occurs at all. -/
theorem tokenTransfer_account_creation (useLightSpeed : Bool)
    (payer recipient senderTokenAccount recipientTokenAccount tokenMint : Pubkey)
    (transferAmount : Nat) :
    tokenTransferTotalSOLNeeded true = txFee + accountCreationRent ∧
    tokenTransferTotalSOLNeeded false = txFee ∧
    (∃ i j : Nat, i < j ∧
      (tokenTransferInstrs useLightSpeed payer recipient senderTokenAccount
          recipientTokenAccount tokenMint true transferAmount)[i]? =
        some (Instr.createAssociatedTokenAccount payer recipientTokenAccount
          recipient tokenMint) ∧
      (tokenTransferInstrs useLightSpeed payer recipient senderTokenAccount
          recipientTokenAccount tokenMint true transferAmount)[j]? =
        some (Instr.splTransfer senderTokenAccount recipientTokenAccount payer
          transferAmount)) ∧
    (∀ p a o m, Instr.createAssociatedTokenAccount p a o m ∉
      tokenTransferInstrs useLightSpeed payer recipient senderTokenAccount
        recipientTokenAccount tokenMint false transferAmount) := by
  refine ⟨rfl, rfl, ⟨2, 3, by omega, ?_, ?_⟩, ?_⟩
  · cases useLightSpeed <;> rfl
  · cases useLightSpeed <;> rfl
  · intro p a o m
    cases useLightSpeed <;>
      simp [tokenTransferInstrs, addLightSpeedTip, addComputeBudget,
        lightSpeedTipInstr]

/-- C9: with the balance guard passing, an HTTP 429 on either aggregator
call aborts the swap with the rate-limit message (so nothing is sent), an
HTTP 400 aborts with the distinct bad-request message, and the two
messages differ; the error is absorbed into the returned outcome, not
propagated. -/
theorem jupiterSwap_http_error_handling (useLightSpeed : Bool) (payer : Pubkey)
    (solBalance : Nat) (instrResult : Except Nat SwapInstrData) (q : Nat)
    (hbal : checkBalanceForOperations useLightSpeed solBalance
      jupiterTotalNeeded = true) :
    jupiterSwapRun useLightSpeed payer solBalance (Except.error 429) instrResult
      = SwapOutcome.aborted "Rate limited. Try again in a few seconds." ∧
    jupiterSwapRun useLightSpeed payer solBalance (Except.error 400) instrResult
      = SwapOutcome.aborted "Bad request. Check your parameters." ∧
    jupiterSwapRun useLightSpeed payer solBalance (Except.ok q) (Except.error 429)
      = SwapOutcome.aborted "Rate limited. Try again in a few seconds." ∧
    (∀ instrs, jupiterSwapRun useLightSpeed payer solBalance (Except.error 429)
        instrResult ≠ SwapOutcome.sent instrs) ∧
    jupiterErrorReport 429 ≠ jupiterErrorReport 400 := by
  refine ⟨?_, ?_, ?_, ?_, by decide⟩ <;>
    simp [jupiterSwapRun, hbal, jupiterErrorReport]

/-- Witness for C9: with a sufficient balance and a 429 from the quote
call, the swap aborts with the rate-limit message. -/
theorem jupiterSwap_http_error_handling_witness :
    jupiterSwapRun false "payer" 2000000 (Except.error 429)
      (Except.error 429) =
      SwapOutcome.aborted "Rate limited. Try again in a few seconds." :=
  (jupiterSwap_http_error_handling false "payer" 2000000 (Except.error 429) 0
      (by decide)).1

/-- C10: when `DEFAULT_RECIPIENT` is unset (but the required variables are
set), configuration loading still succeeds, records that it warned, and
substitutes the placeholder address — which is exactly the wrapped-SOL
mint — and both `solTransfer` and `tokenTransfer` resolve a missing
recipient argument to that default. -/
theorem defaultRecipient_fallback (rpc rpcLightSpeed walletPath : String)
    (h1 : rpc ≠ "") (h2 : rpcLightSpeed ≠ "") (h3 : walletPath ≠ "") :
    loadConfig (some rpc) (some rpcLightSpeed) (some walletPath) none =
      Except.ok ⟨rpc, rpcLightSpeed, walletPath, placeholderRecipient, true⟩ ∧
    solTransferRecipient none placeholderRecipient = placeholderRecipient ∧
    tokenTransferRecipient none placeholderRecipient = placeholderRecipient ∧
    placeholderRecipient = SOL_MINT := by
  refine ⟨?_, rfl, rfl, rfl⟩
  simp [loadConfig, envFalsy, resolveDefaultRecipient, h1, h2, h3]

/-- Witness for C10 at concrete environment values. -/
theorem defaultRecipient_fallback_witness :
    loadConfig (some "rpc") (some "lightspeed") (some "wallet.json") none =
      Except.ok ⟨"rpc", "lightspeed", "wallet.json", placeholderRecipient, true⟩ :=
  (defaultRecipient_fallback "rpc" "lightspeed" "wallet.json"
      (by decide) (by decide) (by decide)).1

end LightSpeed
